import Mathlib

/-!
Verification of the MSSPM NLopt parameter-estimation engine
(`NLopt_Estimator.cpp` / `NLopt_Estimator.h`).

The C++ `double` is modelled by `FP`: an exact rational together with a
single non-finite marker `FP.nan` that absorbs arithmetic, mirroring IEEE
NaN propagation.  Infinities produced by division by zero are collapsed
into the same marker; no claim below depends on distinguishing them.
ublas matrices are modelled as row lists (`Mat`), zero-filled on
construction just as `nmfUtils` zero-fills them.
-/

attribute [local semireducible] Rat.add Rat.sub Rat.mul Rat.inv

namespace MSSPM

/-- Decidable equality for `Except` results, used to evaluate concrete
simulation outcomes. -/
instance {e a : Type} [DecidableEq e] [DecidableEq a] : DecidableEq (Except e a) := fun x y =>
  match x, y with
  | Except.error u, Except.error v => decidable_of_iff (u = v) (by simp)
  | Except.ok u, Except.ok v => decidable_of_iff (u = v) (by simp)
  | Except.error _, Except.ok _ => Decidable.isFalse (by simp)
  | Except.ok _, Except.error _ => Decidable.isFalse (by simp)

/-- Model of the C++ `double` values flowing through the estimator:
either a finite value (exact rational) or the non-finite marker `nan`. -/
inductive FP where
  | nan : FP
  | val : ℚ → FP
deriving DecidableEq, Repr

namespace FP

/-- IEEE-style addition: any operation touching `nan` yields `nan`. -/
def add : FP → FP → FP
  | val a, val b => val (a + b)
  | _, _ => nan

/-- IEEE-style subtraction with `nan` propagation. -/
def sub : FP → FP → FP
  | val a, val b => val (a - b)
  | _, _ => nan

/-- Negation; `-nan = nan`. -/
def neg : FP → FP
  | val a => val (-a)
  | nan => nan

/-- Division; division by zero (which in IEEE gives a non-finite result)
and any `nan` operand yield the non-finite marker. -/
def div : FP → FP → FP
  | val a, val b => if b = 0 then nan else val (a / b)
  | _, _ => nan

/-- The C++ `<` on doubles: every comparison involving NaN is false. -/
def lt : FP → FP → Bool
  | val a, val b => decide (a < b)
  | _, _ => false

/-- The C++ `==` on doubles: `NaN == NaN` is false. -/
def eqB : FP → FP → Bool
  | val a, val b => decide (a = b)
  | _, _ => false

/-- Model of `std::isnan`. -/
def isnanB : FP → Bool
  | nan => true
  | val _ => false

/-- Model of `std::fabs`. -/
def fabs : FP → FP
  | val a => val |a|
  | nan => nan

instance : Neg FP := ⟨FP.neg⟩
instance : Sub FP := ⟨FP.sub⟩
instance : Div FP := ⟨FP.div⟩
instance : Add FP := ⟨FP.add⟩
instance : Zero FP := ⟨FP.val 0⟩

theorem val_add (a b : ℚ) : (val a) + (val b) = val (a + b) := rfl

theorem nan_add (x : FP) : nan + x = nan := rfl

theorem add_nan (x : FP) : x + nan = nan := by cases x <;> rfl

theorem zero_def : (0 : FP) = val 0 := rfl

protected theorem addAssoc (a b c : FP) : a + b + c = a + (b + c) := by
  cases a <;> cases b <;> cases c <;>
    simp [FP.val_add, FP.nan_add, FP.add_nan] <;> ring

protected theorem zeroAdd (a : FP) : 0 + a = a := by
  cases a <;> simp [FP.zero_def, FP.val_add, FP.add_nan]

protected theorem addZero (a : FP) : a + 0 = a := by
  cases a <;> simp [FP.zero_def, FP.val_add, FP.nan_add]

protected theorem addComm (a b : FP) : a + b = b + a := by
  cases a <;> cases b <;> simp [FP.val_add, FP.nan_add, FP.add_nan] <;> ring

instance : AddCommMonoid FP where
  add := (· + ·)
  zero := 0
  add_assoc := FP.addAssoc
  zero_add := FP.zeroAdd
  add_zero := FP.addZero
  add_comm := FP.addComm
  nsmul := nsmulRec

end FP

/-- Boost ublas matrices of doubles, as row lists. -/
abbrev Mat := List (List FP)

/-- Read entry `(i, j)`; out-of-range reads (not exercised by the claims)
default to `0`, matching the zero-filled allocations. -/
def mget (m : Mat) (i j : Nat) : FP := (m.getD i []).getD j (FP.val 0)

/-- Write entry `(i, j)` (no-op out of range, as all writes in the source
target properly allocated matrices). -/
def mset (m : Mat) (i j : Nat) (v : FP) : Mat :=
  m.set i ((m.getD i []).set j v)

/-- `nmfUtils` zero-fills on allocation: an `r × c` matrix of zeros. -/
def zerosM (r c : Nat) : Mat := List.replicate r (List.replicate c (FP.val 0))

/-- Modelled from the spec: the run configuration (`Data_Struct` from the
shared-utilities header, which is not part of these sources).  Only the
fields read by `NLopt_Estimator.cpp` are modelled, with the types used
there. -/
structure Data_Struct where
  GrowthForm : String
  HarvestForm : String
  CompetitionForm : String
  PredationForm : String
  NumSpecies : Nat
  NumGuilds : Nat
  RunLength : Nat
  GuildSpecies : List (List Nat)
  ObservedBiomassBySpecies : Mat
  ObservedBiomassByGuilds : Mat
  Catch : Mat
  Effort : Mat
  Exploitation : Mat
  ObjectiveCriterion : String
  Scaling : String
  Minimizer : String
  TotalNumberParameters : Nat
  BeesNumRepetitions : Nat
  showDiagnosticChart : Bool
deriving Repr

namespace Data_Struct

/-- `bool isLogistic = (GrowthForm == "Logistic")` (extractParameters). -/
def isLogistic (ds : Data_Struct) : Bool := ds.GrowthForm == "Logistic"

/-- `bool isCatchability = (HarvestForm == "Effort (qE)")`. -/
def isCatchability (ds : Data_Struct) : Bool := ds.HarvestForm == "Effort (qE)"

/-- `bool isAlpha = (CompetitionForm == "NO_K")`. -/
def isAlpha (ds : Data_Struct) : Bool := ds.CompetitionForm == "NO_K"

/-- `bool isMSPROD = (CompetitionForm == "MS-PROD")`. -/
def isMSPROD (ds : Data_Struct) : Bool := ds.CompetitionForm == "MS-PROD"

/-- `bool isAGGPROD = (CompetitionForm == "AGG-PROD")`. -/
def isAGGPROD (ds : Data_Struct) : Bool := ds.CompetitionForm == "AGG-PROD"

/-- `bool isRho`: predation form is Type I, II or III. -/
def isRho (ds : Data_Struct) : Bool :=
  ds.PredationForm == "Type I" || ds.PredationForm == "Type II" ||
    ds.PredationForm == "Type III"

/-- `bool isHandling`: predation form is Type II or III. -/
def isHandling (ds : Data_Struct) : Bool :=
  ds.PredationForm == "Type II" || ds.PredationForm == "Type III"

/-- `bool isExponent = (PredationForm == "Type III")`. -/
def isExponent (ds : Data_Struct) : Bool := ds.PredationForm == "Type III"

/-- `int NumSpeciesOrGuilds = (isAGGPROD) ? NumGuilds : NumSpecies`. -/
def numSpeciesOrGuilds (ds : Data_Struct) : Nat :=
  if ds.isAGGPROD then ds.NumGuilds else ds.NumSpecies

theorem isMSPROD_not_isAGGPROD (ds : Data_Struct) (h : ds.isMSPROD = true) :
    ds.isAGGPROD = false := by
  unfold isMSPROD at h
  unfold isAGGPROD
  have : ds.CompetitionForm = "MS-PROD" := by
    simpa using h
  simp [this]

end Data_Struct

/-- The contiguous read `EstParameters[off], …, EstParameters[off+n-1]`
performed by each vector segment of `extractParameters`. -/
def seg (p : Nat → FP) (off n : Nat) : List FP :=
  (List.range n).map (fun i => p (off + i))

/-- A row-major matrix segment: entry `(i, j)` reads
`EstParameters[off + m]` with the running index `m = i*c + j`, exactly as
the `m++` loops in `extractParameters` do. -/
def matSeg (p : Nat → FP) (off r c : Nat) : Mat :=
  (List.range r).map (fun i => seg p (off + i * c) c)

theorem seg_zero (p : Nat → FP) (off : Nat) : seg p off 0 = [] := rfl

theorem seg_append (p : Nat → FP) (off a b : Nat) :
    seg p off a ++ seg p (off + a) b = seg p off (a + b) := by
  unfold seg
  rw [List.range_add, List.map_append, List.map_map]
  congr 1
  apply List.map_congr_left
  intro i _
  simp [Function.comp, Nat.add_assoc]

theorem seg0_append (p : Nat → FP) (a b : Nat) :
    seg p 0 a ++ seg p a b = seg p 0 (a + b) := by
  have := seg_append p 0 a b
  rwa [Nat.zero_add] at this

theorem matSeg_flatten (p : Nat → FP) (off r c : Nat) :
    (matSeg p off r c).flatten = seg p off (r * c) := by
  induction r with
  | zero => simp [matSeg, seg_zero]
  | succ n ih =>
      unfold matSeg at ih ⊢
      rw [List.range_succ, List.map_append, List.flatten_append]
      simp only [List.map_cons, List.map_nil, List.flatten_cons,
        List.flatten_nil, List.append_nil]
      rw [ih, seg_append, Nat.succ_mul]

/-- The structured quantities produced by `extractParameters` (its nine
output reference parameters). -/
structure ExtractedParams where
  growthRate : List FP
  carryingCapacity : List FP
  catchabilityRate : List FP
  competitionAlpha : Mat
  competitionBetaSpecies : Mat
  competitionBetaGuilds : Mat
  predation : Mat
  handling : Mat
  exponent : List FP
deriving DecidableEq, Repr

/-- `NLopt_Estimator::extractParameters`: decode the flat parameter
vector (modelled as the pointer read `p : Nat → FP`) into structured
quantities, consuming contiguous segments at a running `offset` in the
fixed source order. -/
def extractParameters (ds : Data_Struct) (p : Nat → FP) : ExtractedParams :=
  let NumSpeciesOrGuilds := ds.numSpeciesOrGuilds
  let NumGuilds := ds.NumGuilds
  let MatrixSize := NumSpeciesOrGuilds * NumSpeciesOrGuilds
  let offset1 := NumSpeciesOrGuilds
  let offset2 := if ds.isLogistic then offset1 + NumSpeciesOrGuilds else offset1
  let offset3 := if ds.isCatchability then offset2 + NumSpeciesOrGuilds else offset2
  let offset4 := if ds.isAlpha then offset3 + MatrixSize else offset3
  let offset5 :=
    if ds.isMSPROD then offset4 + MatrixSize + NumSpeciesOrGuilds * NumGuilds
    else offset4
  let offset6 :=
    if ds.isAGGPROD then offset5 + NumSpeciesOrGuilds * NumGuilds else offset5
  let offset7 := if ds.isRho then offset6 + MatrixSize else offset6
  let offset8 := if ds.isHandling then offset7 + MatrixSize else offset7
  { growthRate := seg p 0 NumSpeciesOrGuilds
    carryingCapacity :=
      if ds.isLogistic then seg p offset1 NumSpeciesOrGuilds else []
    catchabilityRate :=
      if ds.isCatchability then seg p offset2 NumSpeciesOrGuilds else []
    competitionAlpha :=
      if ds.isAlpha then matSeg p offset3 NumSpeciesOrGuilds NumSpeciesOrGuilds
      else []
    competitionBetaSpecies :=
      if ds.isMSPROD then matSeg p offset4 NumSpeciesOrGuilds NumSpeciesOrGuilds
      else []
    competitionBetaGuilds :=
      if ds.isMSPROD then
        matSeg p (offset4 + MatrixSize) NumSpeciesOrGuilds NumGuilds
      else if ds.isAGGPROD then matSeg p offset5 NumSpeciesOrGuilds NumGuilds
      else []
    predation :=
      if ds.isRho then matSeg p offset6 NumSpeciesOrGuilds NumSpeciesOrGuilds
      else []
    handling :=
      if ds.isHandling then matSeg p offset7 NumSpeciesOrGuilds NumSpeciesOrGuilds
      else []
    exponent := if ds.isExponent then seg p offset8 NumSpeciesOrGuilds else [] }

/-- Re-encoding: concatenate the decoded segments back in the canonical
order (growth, carrying capacity, catchability, alpha, beta-species,
beta-guilds, rho, handling, exponent), matrices flattened row-major. -/
def encodeParams (e : ExtractedParams) : List FP :=
  e.growthRate ++ e.carryingCapacity ++ e.catchabilityRate ++
    e.competitionAlpha.flatten ++ e.competitionBetaSpecies.flatten ++
    e.competitionBetaGuilds.flatten ++ e.predation.flatten ++
    e.handling.flatten ++ e.exponent

/-- Sum of the active segment lengths: the total number of entries
`extractParameters` consumes from the flat vector. -/
def requiredLength (ds : Data_Struct) : Nat :=
  let N := ds.numSpeciesOrGuilds
  let G := ds.NumGuilds
  N + (if ds.isLogistic then N else 0) + (if ds.isCatchability then N else 0) +
    (if ds.isAlpha then N * N else 0) +
    (if ds.isMSPROD then N * N + N * G else 0) +
    (if ds.isAGGPROD then N * G else 0) +
    (if ds.isRho then N * N else 0) +
    (if ds.isHandling then N * N else 0) +
    (if ds.isExponent then N else 0)

theorem ite_seg (c : Prop) [Decidable c] (p : Nat → FP) (off n : Nat) :
    (if c then seg p off n else []) = seg p off (if c then n else 0) := by
  by_cases h : c <;> simp [h, seg_zero]

theorem ite_flatten (c : Prop) [Decidable c] (m : Mat) :
    (if c then m else ([] : Mat)).flatten = if c then m.flatten else [] := by
  by_cases h : c <;> simp [h]

theorem ite_offset (c : Prop) [Decidable c] (o n : Nat) :
    (if c then o + n else o) = o + (if c then n else 0) := by
  by_cases h : c <;> simp [h]

theorem encode_extract (ds : Data_Struct) (p : Nat → FP) :
    encodeParams (extractParameters ds p) = seg p 0 (requiredLength ds) := by
  by_cases hM : ds.isMSPROD = true
  · have hAG := ds.isMSPROD_not_isAGGPROD hM
    simp only [extractParameters, encodeParams, requiredLength, hM, hAG,
      Bool.false_eq_true, if_true, if_false, ite_flatten, matSeg_flatten,
      ite_seg, ite_offset, List.flatten_nil, List.nil_append, List.append_nil,
      seg_append, seg0_append]
    congr 1
    all_goals ring
  · by_cases hAG : ds.isAGGPROD = true
    · have hM' : ds.isMSPROD = false := by
        revert hM
        cases ds.isMSPROD <;> simp
      simp only [extractParameters, encodeParams, requiredLength, hM', hAG,
        Bool.false_eq_true, if_true, if_false, ite_flatten, matSeg_flatten,
        ite_seg, ite_offset, List.flatten_nil, List.nil_append, List.append_nil,
        seg_append, seg0_append]
      congr 1
    · have hM' : ds.isMSPROD = false := by
        revert hM
        cases ds.isMSPROD <;> simp
      have hAG' : ds.isAGGPROD = false := by
        revert hAG
        cases ds.isAGGPROD <;> simp
      simp only [extractParameters, encodeParams, requiredLength, hM', hAG',
        Bool.false_eq_true, if_true, if_false, ite_flatten, matSeg_flatten,
        ite_seg, ite_offset, List.flatten_nil, List.nil_append, List.append_nil,
        seg_append, seg0_append]
      congr 1

theorem seg_getD (v : List FP) :
    seg (fun i => v.getD i (FP.val 0)) 0 v.length = v := by
  apply List.ext_getElem
  · simp [seg]
  · intro i h1 h2
    simp only [seg, List.getElem_map, List.getElem_range]
    rw [Nat.zero_add, List.getD_eq_getElem]

/-- C1: for every run configuration and every flat parameter vector of
exactly the required total length (the sum of the active segment lengths,
`requiredLength`, over the fixed segment order with base dimension
`numSpeciesOrGuilds`), decoding with `extractParameters` and
re-concatenating the decoded segments in canonical order reproduces the
input vector exactly — the decode is lossless, order preserving, and a
bijection onto its image for a fixed configuration. -/
theorem C1_codec_roundTrip (ds : Data_Struct) (v : List FP)
    (h : v.length = requiredLength ds) :
    encodeParams (extractParameters ds (fun i => v.getD i (FP.val 0))) = v := by
  rw [encode_extract, ← h, seg_getD]

/-- A configuration with every segment active: logistic growth,
effort-based harvest, MS-PROD competition, Type III predation,
2 species in 1 guild.  Required length: 2+2+2+(4+2)+4+4+2 = 22. -/
def dsC1 : Data_Struct :=
  { GrowthForm := "Logistic", HarvestForm := "Effort (qE)",
    CompetitionForm := "MS-PROD", PredationForm := "Type III",
    NumSpecies := 2, NumGuilds := 1, RunLength := 3,
    GuildSpecies := [[0, 1]],
    ObservedBiomassBySpecies := [], ObservedBiomassByGuilds := [],
    Catch := [], Effort := [], Exploitation := [],
    ObjectiveCriterion := "Least Squares", Scaling := "Min Max",
    Minimizer := "GN_ORIG_DIRECT_L", TotalNumberParameters := 22,
    BeesNumRepetitions := 1, showDiagnosticChart := false }

/-- A concrete 22-entry flat parameter vector. -/
def vC1 : List FP := (List.range 22).map (fun i => FP.val i)

theorem C1_codec_roundTrip_witness :
    vC1.length = requiredLength dsC1 ∧
      encodeParams (extractParameters dsC1 (fun i => vC1.getD i (FP.val 0))) = vC1 :=
  ⟨by decide, C1_codec_roundTrip dsC1 vC1 (by decide)⟩

/-- The read `carryingCapacity[GuildSpecies[i][j]]`, with the zero default
standing in for the out-of-range read (never exercised in a well-formed
run). -/
def memberK (K : List FP) (s : Nat) : FP := K.getD s (FP.val 0)

/-- The inner loop of the carrying-capacity precomputation in
`objectiveFunction`: for each member species,
`guildK += carryingCapacity[GuildSpecies[i][j]]` followed by
`systemCarryingCapacity += guildK`. -/
def guildKLoop (K : List FP) : List Nat → FP → FP → FP × FP
  | [], guildK, sysK => (guildK, sysK)
  | s :: rest, guildK, sysK =>
      let g := guildK + memberK K s
      guildKLoop K rest g (sysK + g)

/-- The carrying-capacity precomputation at the top of
`objectiveFunction` (before the year loop): returns the
`guildCarryingCapacity` vector and `systemCarryingCapacity`. -/
def calculateCarryingCapacities (guilds : List (List Nat)) (K : List FP) :
    List FP × FP :=
  guilds.foldl
    (fun acc members =>
      let r := guildKLoop K members (FP.val 0) acc.2
      (acc.1 ++ [r.1], r.2))
    ([], FP.val 0)

/-- Sum of the members' carrying capacities, each member counted once. -/
def guildSum (K : List FP) (ms : List Nat) : FP := (ms.map (memberK K)).sum

/-- Weighted sum in which each member's carrying capacity is counted once
for itself and once more for every later member of the same guild. -/
def weightedGuildSum (K : List FP) : List Nat → FP
  | [] => 0
  | s :: rest => (rest.length + 1) • memberK K s + weightedGuildSum K rest

theorem guildKLoop_eq (K : List FP) (ms : List Nat) (g s : FP) :
    guildKLoop K ms g s =
      (g + guildSum K ms, s + ms.length • g + weightedGuildSum K ms) := by
  induction ms generalizing g s with
  | nil => simp [guildKLoop, guildSum, weightedGuildSum]
  | cons x rest ih =>
      simp only [guildKLoop, guildSum, List.map_cons, List.sum_cons,
        List.length_cons, weightedGuildSum]
      rw [ih, Prod.mk.injEq]
      constructor
      · simp [guildSum, add_assoc]
      · rw [succ_nsmul, succ_nsmul, nsmul_add]
        simp [add_assoc, add_comm, add_left_comm]

theorem calculateCarryingCapacities_go (K : List FP) (guilds : List (List Nat))
    (acc1 : List FP) (acc2 : FP) :
    guilds.foldl
        (fun acc members =>
          let r := guildKLoop K members (FP.val 0) acc.2
          (acc.1 ++ [r.1], r.2))
        (acc1, acc2) =
      (acc1 ++ guilds.map (guildSum K),
        acc2 + (guilds.map (weightedGuildSum K)).sum) := by
  induction guilds generalizing acc1 acc2 with
  | nil => simp
  | cons ms rest ih =>
      simp only [List.foldl_cons]
      rw [ih, guildKLoop_eq]
      simp [← FP.zero_def, List.map_cons, List.sum_cons, nsmul_zero, add_assoc]

/-- C8: at each evaluation, before the year loop, each guild's carrying
capacity is the plain sum of the decoded carrying capacities of exactly
its member species, while the system-wide carrying capacity accumulates
the guild's running total on every member iteration, so each member
contributes to the system total once for itself and once for every later
member of its guild (`weightedGuildSum`) — the double-counting the spec
flags is exactly the reference behavior. -/
theorem C8_carryingCapacity_accumulation (guilds : List (List Nat)) (K : List FP) :
    calculateCarryingCapacities guilds K =
      (guilds.map (fun ms => guildSum K ms),
        (guilds.map (fun ms => weightedGuildSum K ms)).sum) := by
  unfold calculateCarryingCapacities
  rw [calculateCarryingCapacities_go]
  simp [← FP.zero_def]

/-- Modelled from the spec: the growth-form evaluator (`nmfGrowthForm`,
an external strategy object), an opaque function with the argument list
of its call site `evaluate(i, EstBiomassVal, growthRate,
carryingCapacity)`. -/
abbrev GrowthEval := Nat → FP → List FP → List FP → FP

/-- Modelled from the spec: the harvest-form evaluator, called as
`evaluate(timeMinus1, i, Catch, Effort, Exploitation, EstBiomassVal,
catchabilityRate)`. -/
abbrev HarvestEval := Nat → Nat → Mat → Mat → Mat → FP → List FP → FP

/-- Modelled from the spec: the competition-form evaluator, called as
`evaluate(timeMinus1, i, EstBiomassVal, systemCarryingCapacity,
growthRate, guildCarryingCapacity[guildNum], competitionAlpha,
competitionBetaSpecies, competitionBetaGuilds, EstBiomassSpecies,
EstBiomassGuilds)`. -/
abbrev CompetitionEval :=
  Nat → Nat → FP → FP → List FP → FP → Mat → Mat → Mat → Mat → Mat → FP

/-- Modelled from the spec: the predation-form evaluator, called as
`evaluate(timeMinus1, i, predation, handling, exponent,
EstBiomassSpecies, EstBiomassVal)`. -/
abbrev PredationEval := Nat → Nat → Mat → Mat → List FP → Mat → FP → FP

/-- The four pluggable sub-model evaluators.  Only the growth pointer's
nullity is ever checked by `objectiveFunction`, so only it is optional
here; in every run of `estimateParameters` all four are installed
together. -/
structure Forms where
  growth : Option GrowthEval
  harvest : HarvestEval
  competition : CompetitionEval
  predation : PredationEval

/-- Modelled from the spec: the external `nmfUtilsStatistics` scoring
routines used by `objectiveFunction`; opaque score functions on the
(estimated, observed) matrix pair. -/
structure StatsLib where
  calculateSumOfSquares : Mat → Mat → FP
  calculateModelEfficiency : Mat → Mat → FP
  calculateMaximumLikelihoodNoRescale : Mat → Mat → FP

/-- Everything the year loop of `objectiveFunction` reads: configuration,
decoded parameters, precomputed carrying capacities, and the four
evaluators. -/
structure SimCtx where
  ds : Data_Struct
  ep : ExtractedParams
  guildCarryingCapacity : List FP
  systemCarryingCapacity : FP
  growthEval : GrowthEval
  harvestEval : HarvestEval
  competitionEval : CompetitionEval
  predationEval : PredationEval

/-- The abort test
`(EstBiomassVal < 0) || (std::isnan(std::fabs(EstBiomassVal)))`. -/
def isBadBiomass (v : FP) : Bool :=
  FP.lt v (FP.val 0) || FP.isnanB (FP.fabs v)

/-- One guild's inner accumulation
`EstBiomassGuilds(time,i) += EstBiomassSpecies(time,GuildSpecies[i][j])`
over its member list. -/
def addGuildMembers (estS : Mat) (time g : Nat) (members : List Nat)
    (estG : Mat) : Mat :=
  members.foldl
    (fun acc s => mset acc time g (mget acc time g + mget estS time s)) estG

/-- The nested guild-update loop that runs inside the species loop (its
loop variable shadows the species index `i`): for every guild, add every
member's current-year species biomass onto the guild's current-year
entry.  Nothing resets the entry between species iterations. -/
def guildBiomassUpdate (guildSpecies : List (List Nat)) (time : Nat)
    (estS estG : Mat) : Mat :=
  guildSpecies.enum.foldl
    (fun acc gi => addGuildMembers estS time gi.1 gi.2 acc) estG

/-- One species iteration of the year loop: evaluate the four terms on
the previous year's biomass, apply
`EstBiomassVal += Growth - Harvest - Competition - Predation`, abort on a
negative or NaN result, otherwise store the value and run the nested
guild update.  `guildNum` is initialized to 0 and never changed in the
source loop, so the competition evaluator always receives guild 0's
carrying capacity. -/
def speciesStep (c : SimCtx) (time i : Nat) (st : Mat × Mat) :
    Except Unit (Mat × Mat) :=
  let timeMinus1 := time - 1
  let estS := st.1
  let estG := st.2
  let EstBiomassVal := mget estS timeMinus1 i
  let GrowthTerm :=
    c.growthEval i EstBiomassVal c.ep.growthRate c.ep.carryingCapacity
  let HarvestTerm :=
    c.harvestEval timeMinus1 i c.ds.Catch c.ds.Effort c.ds.Exploitation
      EstBiomassVal c.ep.catchabilityRate
  let guildNum := 0
  let CompetitionTerm :=
    c.competitionEval timeMinus1 i EstBiomassVal c.systemCarryingCapacity
      c.ep.growthRate (c.guildCarryingCapacity.getD guildNum (FP.val 0))
      c.ep.competitionAlpha c.ep.competitionBetaSpecies
      c.ep.competitionBetaGuilds estS estG
  let PredationTerm :=
    c.predationEval timeMinus1 i c.ep.predation c.ep.handling c.ep.exponent
      estS EstBiomassVal
  let v := EstBiomassVal +
    (GrowthTerm - HarvestTerm - CompetitionTerm - PredationTerm)
  if isBadBiomass v then Except.error ()
  else
    let estS2 := mset estS time i v
    Except.ok (estS2, guildBiomassUpdate c.ds.GuildSpecies time estS2 estG)

/-- The species loop `for i = 0 .. NumSpeciesOrGuilds-1` for one year,
with the early return on abort. -/
def speciesLoop (c : SimCtx) (time : Nat) :
    List Nat → Mat × Mat → Except Unit (Mat × Mat)
  | [], st => Except.ok st
  | i :: rest, st =>
      match speciesStep c time i st with
      | Except.error e => Except.error e
      | Except.ok st2 => speciesLoop c time rest st2

/-- The year loop `for time = 1 .. NumYears-1`. -/
def timeLoop (c : SimCtx) (N : Nat) :
    List Nat → Mat × Mat → Except Unit (Mat × Mat)
  | [], st => Except.ok st
  | t :: rest, st =>
      match speciesLoop c t (List.range N) st with
      | Except.error e => Except.error e
      | Except.ok st2 => timeLoop c N rest st2

/-- Row 0 of the biomass trajectories: zero-filled matrices with year 0
seeded from `ObservedBiomassBySpecies(0,·)` (always the species matrix,
also in AGG-PROD mode) and `ObservedBiomassByGuilds(0,·)`. -/
def seedSim (ds : Data_Struct) (N : Nat) : Mat × Mat :=
  let NumYears := ds.RunLength + 1
  ((zerosM NumYears N).set 0
      ((List.range N).map (fun i => mget ds.ObservedBiomassBySpecies 0 i)),
    (zerosM NumYears ds.NumGuilds).set 0
      ((List.range ds.NumGuilds).map (fun i => mget ds.ObservedBiomassByGuilds 0 i)))

/-- The full simulation region of `objectiveFunction`: seed year 0, then
run the year loop over years `1 .. RunLength`; `Except.error` is the
abort on a negative or NaN biomass cell. -/
def runSimulation (c : SimCtx) (N : Nat) : Except Unit (Mat × Mat) :=
  timeLoop c N (List.range' 1 c.ds.RunLength) (seedSim c.ds N)

/-- Assemble the simulation context exactly as `objectiveFunction` does:
decode the flat vector, then precompute the guild and system carrying
capacities. -/
def simContextOf (gf : GrowthEval) (F : Forms) (ds : Data_Struct)
    (p : Nat → FP) : SimCtx :=
  let ep := extractParameters ds p
  let cc := calculateCarryingCapacities ds.GuildSpecies ep.carryingCapacity
  { ds := ds, ep := ep, guildCarryingCapacity := cc.1,
    systemCarryingCapacity := cc.2, growthEval := gf,
    harvestEval := F.harvest, competitionEval := F.competition,
    predationEval := F.predation }

/-- Column minimum, modelling `std::sort` on a copy of the column
followed by `tmp.front()`. -/
def listMin : List FP → FP
  | [] => FP.val 0
  | x :: xs => xs.foldl (fun a b => if FP.lt b a then b else a) x

/-- Column maximum, modelling `std::sort` followed by `tmp.back()`. -/
def listMax : List FP → FP
  | [] => FP.val 0
  | x :: xs => xs.foldl (fun a b => if FP.lt a b then b else a) x

/-- One column of a trajectory matrix (`tmp` in the rescalers). -/
def colOf (m : Mat) (numYears sp : Nat) : List FP :=
  (List.range numYears).map (fun t => mget m t sp)

/-- `NLopt_Estimator::rescaleMinMax`: per-column
`(x - min) / (max - min)`. -/
def rescaleMinMax (m : Mat) : Mat :=
  let numYears := m.length
  let numSpecies := (m.headD []).length
  let minValues :=
    (List.range numSpecies).map (fun sp => listMin (colOf m numYears sp))
  let maxValues :=
    (List.range numSpecies).map (fun sp => listMax (colOf m numYears sp))
  (List.range numYears).map (fun t =>
    (List.range numSpecies).map (fun sp =>
      (mget m t sp - minValues.getD sp (FP.val 0)) /
        (maxValues.getD sp (FP.val 0) - minValues.getD sp (FP.val 0))))

/-- `NLopt_Estimator::rescaleMean`: per-column
`(x - mean) / (max - min)`. -/
def rescaleMean (m : Mat) : Mat :=
  let numYears := m.length
  let numSpecies := (m.headD []).length
  let minValues :=
    (List.range numSpecies).map (fun sp => listMin (colOf m numYears sp))
  let maxValues :=
    (List.range numSpecies).map (fun sp => listMax (colOf m numYears sp))
  let avgValues :=
    (List.range numSpecies).map (fun sp =>
      ((colOf m numYears sp).foldl (· + ·) (FP.val 0)) / FP.val numYears)
  (List.range numYears).map (fun t =>
    (List.range numSpecies).map (fun sp =>
      (mget m t sp - avgValues.getD sp (FP.val 0)) /
        (maxValues.getD sp (FP.val 0) - minValues.getD sp (FP.val 0))))

/-- The scaling branch of `objectiveFunction`: "Min Max", "Mean", and the
min-max fallback for an unrecognized method name. -/
def applyScaling (scaling : String) (est obs : Mat) : Mat × Mat :=
  if scaling == "Min Max" then (rescaleMinMax est, rescaleMinMax obs)
  else if scaling == "Mean" then (rescaleMean est, rescaleMean obs)
  else (rescaleMinMax est, rescaleMinMax obs)

/-- The criterion branch of `objectiveFunction`: sum of squares on the
rescaled pair for "Least Squares", the negated model efficiency on the
rescaled pair for "Model Efficiency", maximum likelihood on the unscaled
pair for "Maximum Likelihood", and the untouched `fitness = 0` for any
other name. -/
def computeFitness (stats : StatsLib) (criterion : String)
    (estRescaled obsRescaled estUnscaled obsUnscaled : Mat) : FP :=
  if criterion == "Least Squares" then
    stats.calculateSumOfSquares estRescaled obsRescaled
  else if criterion == "Model Efficiency" then
    -stats.calculateModelEfficiency estRescaled obsRescaled
  else if criterion == "Maximum Likelihood" then
    stats.calculateMaximumLikelihoodNoRescale estUnscaled obsUnscaled
  else FP.val 0

/-- C++ exception values relevant to the estimator: the NLopt forced
stop (a subclass of the std runtime-error per the documented NLopt C++
API), any other exception in the std exception hierarchy, and anything
else (matched only by a catch-all clause). -/
inductive CppExc where
  | forcedStop
  | stdExc (msg : String)
  | otherExc
deriving DecidableEq, Repr

/-- `NLopt_Estimator::objectiveFunction` as a pure function: check the
cancellation flag first (a set flag throws the forced stop, modelled as
`Except.error`), return the −1 sentinel when the growth form was never
installed (the null check precedes only the year loop; the decode and
seeding it follows are pure and folded into `simContextOf` here), return
the 99999 sentinel when the simulation aborts, and otherwise rescale and
score. -/
def objectiveFunction (mQuit : Bool) (F : Forms) (stats : StatsLib)
    (ds : Data_Struct) (p : Nat → FP) : Except CppExc FP :=
  if mQuit then Except.error CppExc.forcedStop
  else
    let NumSpeciesOrGuilds := ds.numSpeciesOrGuilds
    let ObsBiomassBySpeciesOrGuilds :=
      if ds.isAGGPROD then ds.ObservedBiomassByGuilds
      else ds.ObservedBiomassBySpecies
    match F.growth with
    | none => Except.ok (FP.val (-1))
    | some gf =>
      match runSimulation (simContextOf gf F ds p) NumSpeciesOrGuilds with
      | Except.error _ => Except.ok (FP.val 99999)
      | Except.ok st =>
        let scaled := applyScaling ds.Scaling st.1 ObsBiomassBySpeciesOrGuilds
        Except.ok (computeFitness stats ds.ObjectiveCriterion scaled.1
          scaled.2 st.1 ObsBiomassBySpeciesOrGuilds)

/-- C9: if the pluggable sub-model evaluators were never installed for
the run (the growth form is null), `objectiveFunction` returns the
sentinel fitness −1 for every parameter vector, every configuration and
every choice of the remaining evaluators and scoring routines — in
particular the year-by-year simulation loop is never run (the result does
not depend on any of them). -/
theorem C9_missingForms_sentinel (hf : HarvestEval) (cf : CompetitionEval)
    (pf : PredationEval) (stats : StatsLib) (ds : Data_Struct) (p : Nat → FP) :
    objectiveFunction false
        { growth := none, harvest := hf, competition := cf, predation := pf }
        stats ds p =
      Except.ok (FP.val (-1)) := rfl

/-- C4: whenever the simulation region aborts on a negative or NaN
biomass cell (the abortive `runSimulation` stops at the first such cell
by construction), `objectiveFunction` returns exactly the sentinel
fitness 99999 — for every scoring library, so no rescaling or scoring
contributes to the result. -/
theorem C4_abort_sentinel (F : Forms) (gf : GrowthEval) (stats : StatsLib)
    (ds : Data_Struct) (p : Nat → FP) (h1 : F.growth = some gf)
    (h2 : runSimulation (simContextOf gf F ds p) ds.numSpeciesOrGuilds =
      Except.error ()) :
    objectiveFunction false F stats ds p = Except.ok (FP.val 99999) := by
  simp only [objectiveFunction, Bool.false_eq_true, if_false, h1, h2]

/-- A growth evaluator returning 0: the biomass recurrence keeps last
year's value. -/
def gfZero : GrowthEval := fun _ _ _ _ => FP.val 0

/-- A growth evaluator returning −100: drives the first year's biomass
negative from any moderate start. -/
def gfNeg : GrowthEval := fun _ _ _ _ => FP.val (-100)

/-- A zero harvest evaluator. -/
def hfZero : HarvestEval := fun _ _ _ _ _ _ _ => FP.val 0

/-- A zero competition evaluator. -/
def cfZero : CompetitionEval := fun _ _ _ _ _ _ _ _ _ _ _ => FP.val 0

/-- A zero predation evaluator. -/
def pfZero : PredationEval := fun _ _ _ _ _ _ _ => FP.val 0

/-- A zero scoring library. -/
def statsZero : StatsLib :=
  { calculateSumOfSquares := fun _ _ => FP.val 0,
    calculateModelEfficiency := fun _ _ => FP.val 0,
    calculateMaximumLikelihoodNoRescale := fun _ _ => FP.val 0 }

/-- Two species in one guild, one simulated year, no active segments
beyond growth rate; observed year-0 biomass (1, 10), guild total 11. -/
def dsSim : Data_Struct :=
  { GrowthForm := "Linear", HarvestForm := "Catch",
    CompetitionForm := "Null", PredationForm := "Null",
    NumSpecies := 2, NumGuilds := 1, RunLength := 1,
    GuildSpecies := [[0, 1]],
    ObservedBiomassBySpecies := [[FP.val 1, FP.val 10], [FP.val 0, FP.val 0]],
    ObservedBiomassByGuilds := [[FP.val 11], [FP.val 0]],
    Catch := [[FP.val 0, FP.val 0], [FP.val 0, FP.val 0]],
    Effort := [[FP.val 0, FP.val 0], [FP.val 0, FP.val 0]],
    Exploitation := [[FP.val 0, FP.val 0], [FP.val 0, FP.val 0]],
    ObjectiveCriterion := "Least Squares", Scaling := "Min Max",
    Minimizer := "LN_NELDERMEAD", TotalNumberParameters := 2,
    BeesNumRepetitions := 1, showDiagnosticChart := false }

/-- The evaluator set whose growth term forces an abort. -/
def formsC4 : Forms :=
  { growth := some gfNeg, harvest := hfZero, competition := cfZero,
    predation := pfZero }

theorem C4_abort_sentinel_witness :
    formsC4.growth = some gfNeg ∧
      runSimulation (simContextOf gfNeg formsC4 dsSim (fun _ => FP.val 0))
          dsSim.numSpeciesOrGuilds =
        Except.error () ∧
      objectiveFunction false formsC4 statsZero dsSim (fun _ => FP.val 0) =
        Except.ok (FP.val 99999) :=
  ⟨rfl, by decide,
    C4_abort_sentinel formsC4 gfNeg statsZero dsSim (fun _ => FP.val 0) rfl
      (by decide)⟩

/-- Species-cell projection of a simulation result. -/
def simSpeciesCell (r : Except Unit (Mat × Mat)) (t s : Nat) : FP :=
  match r with
  | Except.ok st => mget st.1 t s
  | Except.error _ => FP.nan

/-- Guild-cell projection of a simulation result. -/
def simGuildCell (r : Except Unit (Mat × Mat)) (t g : Nat) : FP :=
  match r with
  | Except.ok st => mget st.2 t g
  | Except.error _ => FP.nan

/-- The evaluator set with all four terms zero: the biomass trajectory
stays at the observed year-0 values. -/
def formsC2 : Forms :=
  { growth := some gfZero, harvest := hfZero, competition := cfZero,
    predation := pfZero }

/-- The simulation of `dsSim` under the all-zero evaluators. -/
def rC2 : Except Unit (Mat × Mat) :=
  runSimulation (simContextOf gfZero formsC2 dsSim (fun _ => FP.val 0))
    dsSim.numSpeciesOrGuilds

/-- C2 (code bug): with two species `(1, 10)` in one guild and all four
evaluator terms zero, the year-1 species biomasses are 1 and 10, yet the
year-1 guild biomass computed by the nested guild update is 12, not the
member sum 11: the update runs once per species iteration without
resetting the entry (and with its loop variable shadowing the species
index), so species 0 is counted twice.  This contradicts the claimed
"each member species counted once". -/
theorem C2_guild_update_double_counts :
    simSpeciesCell rC2 1 0 = FP.val 1 ∧ simSpeciesCell rC2 1 1 = FP.val 10 ∧
      simGuildCell rC2 1 0 = FP.val 12 ∧
      simSpeciesCell rC2 1 0 + simSpeciesCell rC2 1 1 = FP.val 11 ∧
      (FP.val 12 : FP) ≠ FP.val 11 := by
  refine ⟨by decide, by decide, by decide, by decide, by decide⟩

/-- One record appended to the progress-chart file by
`writeCurrentLoopFile`: run name, iteration count, criterion-adjusted
fitness, and the unused placeholder field. -/
structure ProgressRecord where
  name : String
  numGens : Int
  adjustedBestFitness : FP
  numGensSinceBestFit : Int
deriving DecidableEq, Repr

/-- `NLopt_Estimator::writeCurrentLoopFile`, as the record it appends:
the fitness is negated back exactly when the objective criterion is
"Model Efficiency" (the internal fitness was pre-negated so the
minimizing search could be reused, and the plot should approach +1). -/
def writeCurrentLoopFile (MSSPMName : String) (NumGens : Int)
    (BestFitness : FP) (ObjectiveCriterion : String)
    (NumGensSinceBestFit : Int) : ProgressRecord :=
  let adjustedBestFitness :=
    if ObjectiveCriterion == "Model Efficiency" then -BestFitness
    else BestFitness
  { name := MSSPMName, numGens := NumGens,
    adjustedBestFitness := adjustedBestFitness,
    numGensSinceBestFit := NumGensSinceBestFit }

/-- `incrementObjectiveFunctionCounter`: bump the call counter
`m_NumObjFcnCalls` and append a progress record on every 1000th call
(the `unused = -1` placeholder fills the last field). -/
def incrementObjectiveFunctionCounter (MSSPMName : String) (fitness : FP)
    (criterion : String) (mNumObjFcnCalls : Nat) :
    Nat × Option ProgressRecord :=
  let n := mNumObjFcnCalls + 1
  (n,
    if n % 1000 == 0 then
      some (writeCurrentLoopFile MSSPMName (Int.ofNat n) fitness criterion (-1))
    else none)

/-- The structured contents of the best-fitness summary string built by
`createOutputStr`: the numeric header fields in order, then the
conditional parameter listings. -/
structure OutputSummary where
  numEstParameters : Nat
  numTotalParameters : Nat
  numSubRuns : Nat
  bestFitness : FP
  fitnessStdDev : FP
  initialCarryingCapacities : Option (List FP)
  estGrowthRates : List FP
  estCarryingCapacities : Option (List FP)
  estCatchability : Option (List FP)
  estCompetitionAlpha : Option Mat
  estCompetitionBetaSpecies : Option Mat
  estCompetitionBetaGuilds : Option Mat
  estPredationRho : Option Mat
  estHandling : Option Mat
  estPredationExponent : Option (List FP)
deriving DecidableEq, Repr

/-- `NLopt_Estimator::createOutputStr`, modelled as the structured
contents of the summary string it builds.  The best-fitness figure is
the `bestFitness` argument exactly as passed in — no criterion-dependent
adjustment is applied (the function never reads the objective
criterion).  The beta-guilds listing reproduces the source, which prints
`m_EstBetaSpecies` under the "Competition (beta::guilds)" label. -/
def createOutputStr (numTotalParameters numEstParameters numSubRuns : Nat)
    (bestFitness fitnessStdDev : FP) (ds : Data_Struct)
    (initialCarryingCapacities : List FP) (ep : ExtractedParams) :
    OutputSummary :=
  { numEstParameters := numEstParameters,
    numTotalParameters := numTotalParameters,
    numSubRuns := numSubRuns,
    bestFitness := bestFitness,
    fitnessStdDev := fitnessStdDev,
    initialCarryingCapacities :=
      if ds.GrowthForm == "Logistic" then some initialCarryingCapacities
      else none,
    estGrowthRates := ep.growthRate,
    estCarryingCapacities :=
      if ds.GrowthForm == "Logistic" then some ep.carryingCapacity else none,
    estCatchability :=
      if ds.HarvestForm == "Effort (qE)" then some ep.catchabilityRate
      else none,
    estCompetitionAlpha :=
      if ds.CompetitionForm == "NO_K" then some ep.competitionAlpha else none,
    estCompetitionBetaSpecies :=
      if ds.CompetitionForm == "MS-PROD" then some ep.competitionBetaSpecies
      else none,
    estCompetitionBetaGuilds :=
      if ds.CompetitionForm == "MS-PROD" || ds.CompetitionForm == "AGG-PROD"
      then some ep.competitionBetaSpecies
      else none,
    estPredationRho :=
      if ds.PredationForm == "Type I" || ds.PredationForm == "Type II" ||
          ds.PredationForm == "Type III"
      then some ep.predation
      else none,
    estHandling :=
      if ds.PredationForm == "Type II" || ds.PredationForm == "Type III"
      then some ep.handling
      else none,
    estPredationExponent :=
      if ds.PredationForm == "Type III" then some ep.exponent else none }

/-- The four lines `stopRun` writes to the stop file. -/
structure StopRecord where
  cmd : String
  runName : String
  elapsedTime : String
  fitness : Option OutputSummary
deriving DecidableEq, Repr

/-- `NLopt_Estimator::stopRun`: the terminal record — the literal "Stop"
command, an empty run name, the elapsed-time line, and the best-fitness
summary (`none` models the untouched "TBD" placeholder written when no
summary was produced). -/
def stopRun (elapsedTimeStr : String) (fitnessStr : Option OutputSummary) :
    StopRecord :=
  { cmd := "Stop", runName := "", elapsedTime := elapsedTimeStr,
    fitness := fitnessStr }

/-- Whether the optimizer is told to minimize or maximize. -/
inductive OptimizeDirection where
  | minimize
  | maximize
deriving DecidableEq, Repr

/-- The objective-direction configuration in `estimateParameters`:
"Least Squares" and "Maximum Likelihood" call `set_min_objective`,
"Model Efficiency" calls `set_max_objective`; any other criterion
registers no objective at all. -/
def objectiveDirection (criterion : String) : Option OptimizeDirection :=
  if criterion == "Least Squares" then some OptimizeDirection.minimize
  else if criterion == "Maximum Likelihood" then some OptimizeDirection.minimize
  else if criterion == "Model Efficiency" then some OptimizeDirection.maximize
  else none

/-- The starting point pushed for one parameter: the lower bound when
the bounds coincide (C++ `==` on doubles), otherwise the midpoint
`lower + (upper - lower)/2`. -/
def initialGuess (lo hi : FP) : FP :=
  if FP.eqB lo hi then lo else lo + (hi - lo) / FP.val 2

/-- How `estimateParameters` reached its end: through the end of the
outer try block (carrying any exception the inner handlers around
`m_Optimizer.optimize` caught), through the outer forced-stop handler,
or through the outer std-exception handler. -/
inductive TerminalState where
  | completed (innerException : Option CppExc)
  | cancelled
  | completedWithException (e : CppExc)
deriving DecidableEq, Repr

/-- Which exceptions a C++ catch clause for the std exception base class
matches: everything in the std hierarchy — including the NLopt forced
stop, which the documented NLopt C++ API derives from the std
runtime-error. -/
def matchesStdException : CppExc → Bool
  | CppExc.otherExc => false
  | _ => true

/-- The observable outcome of one `estimateParameters` call: the vector
stored into `NLoptStruct.Parameters` and handed to the optimizer, the
member `m_Parameters` after the call, the emitted `RunCompleted` signal
(summary and diagnostic-chart flag), the terminal state, the terminal
stop record, and the decoded estimated parameters. -/
structure DriverRunResult where
  dsParameters : List FP
  mParameters : List FP
  runCompleted : Option (OutputSummary × Bool)
  terminalState : TerminalState
  stopRecord : StopRecord
  estParams : ExtractedParams
deriving DecidableEq, Repr

/-- `NLopt_Estimator::estimateParameters` as a pure function of the
member state it reads (`m_Parameters` accumulated from previous calls,
`m_InitialCarryingCapacities`), the parameter ranges the four forms
loaded, and the optimizer run (`optimize`), which either returns the
final point and fitness or propagates an exception out of
`m_Optimizer.optimize`.  The initial guesses are pushed onto the
existing `m_Parameters` without clearing it.  The inner try around
`optimize` has a std-exception handler followed by a catch-all, so every
exception is contained there (when `optimize` throws, `m_Parameters`
keeps the value it was handed and `minf` stays 0); the code that
follows — decode, summary, `RunCompleted` — is exception-free, so the
outer forced-stop and std-exception handlers are never reached.
`Except.error` in the result would be an exception escaping to the
caller. -/
def estimateParameters (prevParameters : List FP)
    (initialCarryingCapacities : List FP) (ranges : List (FP × FP))
    (ds : Data_Struct) (optimize : List FP → Except CppExc (List FP × FP))
    (elapsedTimeStr : String) : Except CppExc DriverRunResult :=
  let mParams0 := prevParameters ++ ranges.map (fun r => initialGuess r.1 r.2)
  let _direction := objectiveDirection ds.ObjectiveCriterion
  let inner : (List FP × FP) × Option CppExc :=
    match optimize mParams0 with
    | Except.ok res => (res, none)
    | Except.error e => ((mParams0, FP.val 0), some e)
  let mParams1 := inner.1.1
  let minf := inner.1.2
  let caughtInner := inner.2
  let ep := extractParameters ds (fun i => mParams1.getD i (FP.val 0))
  let summary := createOutputStr ds.TotalNumberParameters mParams1.length
    ds.BeesNumRepetitions minf (FP.val 0) ds initialCarryingCapacities ep
  let outerBody :
      Except CppExc (Option (OutputSummary × Bool) × TerminalState ×
        Option OutputSummary) :=
    Except.ok (some (summary, ds.showDiagnosticChart),
      TerminalState.completed caughtInner, some summary)
  let handled :
      Except CppExc (Option (OutputSummary × Bool) × TerminalState ×
        Option OutputSummary) :=
    match outerBody with
    | Except.ok x => Except.ok x
    | Except.error e =>
        if e = CppExc.forcedStop then
          Except.ok (none, TerminalState.cancelled, none)
        else if matchesStdException e then
          Except.ok (none, TerminalState.completedWithException e, none)
        else Except.error e
  match handled with
  | Except.ok rc =>
      Except.ok
        ⟨mParams0, mParams1, rc.1, rc.2.1, stopRun elapsedTimeStr rc.2.2, ep⟩
  | Except.error e => Except.error e

/-- C3 (code bug evidence): the direction configuration in
`estimateParameters` makes "Least Squares" and "Maximum Likelihood"
minimize, but for "Model Efficiency" it calls `set_max_objective` — it
maximizes the internal value even though the objective function returns
the pre-negated model-efficiency score (last conjunct) and the in-code
comments state the negated score is minimized. -/
theorem C3_direction_and_negation :
    objectiveDirection "Least Squares" = some OptimizeDirection.minimize ∧
      objectiveDirection "Maximum Likelihood" = some OptimizeDirection.minimize ∧
      objectiveDirection "Model Efficiency" = some OptimizeDirection.maximize ∧
      OptimizeDirection.maximize ≠ OptimizeDirection.minimize ∧
      (∀ (stats : StatsLib) (a b c d : Mat),
        computeFitness stats "Model Efficiency" a b c d =
          -stats.calculateModelEfficiency a b) :=
  ⟨rfl, rfl, rfl, by decide, fun _ _ _ _ _ => rfl⟩

/-- An empty decoded-parameter record, for concrete summary fixtures. -/
def epEmpty : ExtractedParams := ⟨[], [], [], [], [], [], [], [], []⟩

/-- `dsSim` with the "Model Efficiency" criterion. -/
def dsME : Data_Struct := { dsSim with ObjectiveCriterion := "Model Efficiency" }

/-- C7 counterexample: with internal fitness 5 under "Model Efficiency",
the periodic progress record holds −5 but the best-fitness field of the
completion summary holds 5, not −5 — so the claim that both are the
negation of the internal fitness is false. -/
theorem C7_counterexample :
    ¬ ((writeCurrentLoopFile "Run 1-1" 1000 (FP.val 5) "Model Efficiency"
            (-1)).adjustedBestFitness =
          -FP.val 5 ∧
        (createOutputStr 10 5 1 (FP.val 5) (FP.val 0) dsME [] epEmpty).bestFitness =
          -FP.val 5) := by
  decide

/-- C7 (amended): for the "Model Efficiency" criterion the periodic
progress record negates the internal fitness, while the best-fitness
figure in the run-completion summary is the internal fitness itself,
un-negated. -/
theorem C7_amended_sign_behavior (name : String) (g : Int) (f : FP) (u : Int)
    (tp epn ns : Nat) (sd : FP) (ds : Data_Struct) (icc : List FP)
    (e : ExtractedParams) :
    (writeCurrentLoopFile name g f "Model Efficiency" u).adjustedBestFitness =
        -f ∧
      (createOutputStr tp epn ns f sd ds icc e).bestFitness = f :=
  ⟨rfl, rfl⟩

/-- Whether a driver run ended without an escaping exception, with the
run-completed signal emitted and the terminal "Stop" record written. -/
def completedProperly (r : Except CppExc DriverRunResult) : Bool :=
  match r with
  | Except.ok res => res.runCompleted.isSome && (res.stopRecord.cmd == "Stop")
  | Except.error _ => false

/-- C5: every `estimateParameters` invocation — whatever the optimizer
run does: return normally, throw an optimizer-internal exception, or
propagate a forced stop — returns without an escaping exception, emits
the run-completed notification, and writes a terminal "Stop" progress
record. -/
theorem C5_always_completes (prev icc : List FP) (ranges : List (FP × FP))
    (ds : Data_Struct) (optimize : List FP → Except CppExc (List FP × FP))
    (elapsed : String) :
    completedProperly (estimateParameters prev icc ranges ds optimize elapsed) =
      true := by
  rcases hopt : optimize (prev ++ ranges.map (fun r => initialGuess r.1 r.2))
    with e | r
  · simp [estimateParameters, hopt, completedProperly, stopRun]
  · simp [estimateParameters, hopt, completedProperly, stopRun]

/-- Terminal-state projection of a driver run. -/
def terminalOf (r : Except CppExc DriverRunResult) : Option TerminalState :=
  match r with
  | Except.ok res => some res.terminalState
  | Except.error _ => none

/-- The optimizer run when the objective throws a forced stop at its
first evaluation: `optimize` propagates the forced stop. -/
def optForcedStop : List FP → Except CppExc (List FP × FP) :=
  fun _ => Except.error CppExc.forcedStop

/-- C6 counterexample: with the cancellation flag set, the objective
throws the forced stop before anything else, but the run does not
terminate in the Cancelled state: the propagated forced stop is consumed
by the inner handlers around `optimize` (a std-exception clause — which
the forced stop matches, deriving from the std runtime-error — followed
by a catch-all that matches every exception), so the terminal state is
the normal completion path carrying the caught exception, not the
dedicated cancelled state. -/
theorem C6_counterexample :
    objectiveFunction true formsC2 statsZero dsSim (fun _ => FP.val 0) =
        Except.error CppExc.forcedStop ∧
      terminalOf (estimateParameters [] [] [] dsSim optForcedStop "t") =
        some (TerminalState.completed (some CppExc.forcedStop)) ∧
      some (TerminalState.completed (some CppExc.forcedStop)) ≠
        some TerminalState.cancelled := by
  refine ⟨rfl, by decide, by decide⟩

/-- C6 (amended): with the cancellation flag set, the next
`objectiveFunction` call throws the forced stop at its very start —
before decoding or simulating anything: the result depends on none of
the evaluators, the scoring library, the configuration or the parameter
vector — and when the optimizer propagates it out of `optimize`, it is
caught exactly once inside `estimateParameters`, by the inner generic
handlers, so the dedicated forced-stop handler is not reached: the run
terminates through the normal completion path, still emitting the
run-completed notification and writing the terminal stop record, and the
simulator is never invoked. -/
theorem C6_amended_cancellation (F : Forms) (stats : StatsLib)
    (ds : Data_Struct) (p : Nat → FP) (prev icc : List FP)
    (ranges : List (FP × FP)) (ds2 : Data_Struct) (elapsed : String) :
    objectiveFunction true F stats ds p = Except.error CppExc.forcedStop ∧
      ∃ res,
        estimateParameters prev icc ranges ds2
            (fun _ => Except.error CppExc.forcedStop) elapsed =
            Except.ok res ∧
          res.terminalState = TerminalState.completed (some CppExc.forcedStop) ∧
          res.runCompleted.isSome = true ∧ res.stopRecord.cmd = "Stop" :=
  ⟨rfl, ⟨_, rfl, rfl, rfl, rfl⟩⟩

/-- The vector stored into `NLoptStruct.Parameters` and handed to the
optimizer by a driver run. -/
def dsParametersOf (r : Except CppExc DriverRunResult) : Option (List FP) :=
  match r with
  | Except.ok res => some res.dsParameters
  | Except.error _ => none

/-- Whether a driver run decoded its estimated results from the post-run
`m_Parameters` vector. -/
def decodedFromFinal (ds : Data_Struct) (r : Except CppExc DriverRunResult) :
    Bool :=
  match r with
  | Except.ok res =>
      decide (res.estParams =
        extractParameters ds (fun i => res.mParameters.getD i (FP.val 0)))
  | Except.error _ => false

/-- C10: `m_Parameters` is only appended to, never cleared: the vector
stored into `NLoptStruct.Parameters` and handed to the optimizer is the
member's previous contents followed by this run's initial guesses
(midpoint of each bound pair, or the bound itself when lower equals
upper), so on the k-th call on the same instance it holds the entries
accumulated from the previous k−1 calls followed by the new guesses
rather than exactly the current run's parameter count; the estimated
results are then decoded from the post-run `m_Parameters`. -/
theorem C10_mParameters_accumulate (prev icc : List FP)
    (ranges : List (FP × FP)) (ds : Data_Struct)
    (optimize : List FP → Except CppExc (List FP × FP)) (elapsed : String) :
    dsParametersOf (estimateParameters prev icc ranges ds optimize elapsed) =
        some (prev ++ ranges.map (fun r => initialGuess r.1 r.2)) ∧
      decodedFromFinal ds
          (estimateParameters prev icc ranges ds optimize elapsed) =
        true := by
  rcases hopt : optimize (prev ++ ranges.map (fun r => initialGuess r.1 r.2))
    with e | r
  · constructor
    · simp [estimateParameters, hopt, dsParametersOf]
    · simp [estimateParameters, hopt, decodedFromFinal]
  · constructor
    · simp [estimateParameters, hopt, dsParametersOf]
    · simp [estimateParameters, hopt, decodedFromFinal]

end MSSPM
